import Mathlib

/-!
Shallow embedding of `tinyetl` (file `tinyetl/__init__.py`), the dry-run-aware
logging helper for Fabric ETL scripts.

Modelling decisions, each tied to the source:
* A `TinyETL` instance is its Python `__dict__`: an association list from
  attribute names to values, where a later `setattr` shadows an earlier
  binding (this makes `self.__dict__.update(kwargs)` at line 82 and the
  `AttributeError` on a never-set attribute faithful).
* Observable side effects (prints, log-sink writes, `os.path.exists` checks,
  opening the log file handler, binary file writes) are collected in an
  explicit trace `List Effect`, in program order.
* `raise SystemExit(msg)` and `AttributeError` become `Except.error` values;
  `raise Exception(e)` at line 126 becomes `PyErr.exception` carrying the
  original exception's message (the type is collapsed to a bare `Exception`
  by the source itself).
* The filesystem is a predicate `fs : String → Bool` (`os.path.exists`),
  the HTTP client a function `String → Response` (`requests.get`), and the
  construction timestamp an input string `now`.
-/

namespace TinyETL

/-- Severity of the `logging` calls the source makes (`logger.info`,
`logger.error` / `logger.exception`). -/
inductive Level where
  | info
  | error
  deriving DecidableEq, Repr

/-- One observable side effect of the embedded code, in program order:
`stdout` is a `print`, `logWrite` a write to the log sink, `checkExists`
an `os.path.exists` call, `openLogSink` the `logging.FileHandler` opened in
`_create_logger`, and `fileWrite` a binary `open(..., "wb").write`. -/
inductive Effect where
  | stdout (s : String)
  | logWrite (lvl : Level) (msg : String)
  | checkExists (path : String)
  | openLogSink (path : String)
  | fileWrite (path : String) (content : List Nat)
  deriving DecidableEq, Repr

/-- An error propagating out of the embedded code: `systemExit` models
`raise SystemExit(msg)`, `attributeError` a failed attribute lookup, and
`exception` the `raise Exception(e)` at source line 126, carrying the
original error's message. -/
inductive PyErr where
  | systemExit (msg : String)
  | attributeError (name : String)
  | exception (msg : String)
  deriving DecidableEq, Repr

/-- A Python value stored in the instance dictionary: the source stores
strings, the boolean `dry_run`, and the logger object (opaque here). -/
inductive PyVal where
  | str (s : String)
  | bool (b : Bool)
  | logger
  deriving DecidableEq, Repr

/-- Python truthiness of a modelled value, as tested by `if self.dry_run:`
at source line 115. -/
def PyVal.truthy : PyVal → Bool
  | .str s => s ≠ ""
  | .bool b => b
  | .logger => true

/-- The instance's `__dict__`: newest binding first. -/
abbrev Dict := List (String × PyVal)

/-- `self.<k> = v`: the new binding shadows any earlier one. -/
def Dict.setattr (d : Dict) (k : String) (v : PyVal) : Dict :=
  (k, v) :: d

/-- Attribute lookup on the instance; `none` models the `AttributeError`
raised when the attribute was never set. -/
def Dict.getattr (d : Dict) (k : String) : Option PyVal :=
  match d with
  | [] => none
  | (k2, v) :: rest => if k2 = k then some v else Dict.getattr rest k

/-- The Fabric `env` object, restricted to the two attributes the source
reads: `env.tasks` (the requested task list, source line 59) and
`env.dry_run` (source line 92); `none` models the attribute being absent,
so that reading it raises `AttributeError`. -/
structure Env where
  tasks : List String
  dry_run : Option String
  deriving DecidableEq, Repr

/-- The message built by `TinyETL.usage` (source lines 84-87) before it
raises `SystemExit`. -/
def usage_msg : String :=
  "Please provide either \x27True\x27 or \x27False\x27 to dry_run.\nUsage: fab <tasks> --set dry_run=[True|False]"

/-- `TinyETL._this_is_a_dry_run` (source lines 89-100): reading a missing
`env.dry_run` raises `AttributeError`, caught and turned into `usage()`;
a value other than the exact strings "True"/"False" also calls `usage()`;
otherwise the string is mapped to a boolean. -/
def this_is_a_dry_run (env : Env) : Except PyErr Bool :=
  match env.dry_run with
  | none => .error (.systemExit usage_msg)
  | some dry_run =>
    if dry_run = "True" then .ok true
    else if dry_run = "False" then .ok false
    else .error (.systemExit usage_msg)

/-- `os.path.join` for the two components used at source line 76. -/
def os_path_join (a b : String) : String :=
  if b.startsWith "/" then b
  else if a.endsWith "/" || a = "" then a ++ b
  else a ++ "/" ++ b

/-- An exception raised by a task body: its type name, its message
(`str(e)`), and its formatted stack frames. -/
structure PyExc where
  etype : String
  msg : String
  stack : String
  deriving DecidableEq, Repr

/-- `traceback.format_exc()` for the active exception (source line 125):
header, formatted stack frames, then the final "type: message" line — so
the logged text contains both the stack trace and the message. -/
def PyExc.format_exc (e : PyExc) : String :=
  "Traceback (most recent call last):\n" ++ e.stack ++ e.etype ++ ": " ++ e.msg

/-- A task function handed to the `log` decorator: its `__name__` (which
`functools.wraps` preserves on the wrapper) and its body, which on a given
argument produces its own effect trace and either returns a value or raises. -/
structure Task (α β : Type) where
  name : String
  body : α → List Effect × Except PyExc β

/-- `TinyETL.__init__` (source lines 49-82). Inputs beyond the Python
parameters: `fs` is `os.path.exists`, `now` the construction timestamp
string. Returns the trace of effects together with the constructed
instance dictionary, or the raised error.

Order is the source's: the empty-task early return (line 59), then `name`,
`long_desc`, the dry-run resolution (line 64, may raise), the existence
check of `log_dir` (line 66, raising a message that names `log_dir`), the
existence check of `tmpdata_dir` (line 71, raising a message that — per
line 72 of the source — also interpolates `log_dir`, not `tmpdata_dir`),
the derived `logname`/`logfile`, the logger creation (which opens the
file handler on `logfile`), and finally `self.__dict__.update(kwargs)`,
which overwrites any attribute set earlier. -/
def init (name long_desc : String) (env : Env) (log_dir tmpdata_dir : String)
    (kwargs : List (String × PyVal)) (fs : String → Bool) (now : String) :
    List Effect × Except PyErr Dict :=
  if env.tasks = [] then
    ([], .ok [])
  else
    let d := Dict.setattr [] "name" (.str name)
    let d := Dict.setattr d "long_desc" (.str long_desc)
    match this_is_a_dry_run env with
    | .error e => ([], .error e)
    | .ok dr =>
      let d := Dict.setattr d "dry_run" (.bool dr)
      if fs log_dir = false then
        ([.checkExists log_dir],
         .error (.systemExit (log_dir ++ " does not exist. Please create the log directory.")))
      else
        let d := Dict.setattr d "log_dir" (.str log_dir)
        if fs tmpdata_dir = false then
          ([.checkExists log_dir, .checkExists tmpdata_dir],
           .error (.systemExit (log_dir ++ " does not exist. Please create the tmp data directory.")))
        else
          let d := Dict.setattr d "tmpdata_dir" (.str tmpdata_dir)
          let logname := name ++ "_" ++ now
          let d := Dict.setattr d "logname" (.str logname)
          let logfile := os_path_join log_dir (logname ++ ".log")
          let d := Dict.setattr d "logfile" (.str logfile)
          let d := Dict.setattr d "logger" .logger
          let d := kwargs.foldl (fun acc kv => Dict.setattr acc kv.1 kv.2) d
          ([.checkExists log_dir, .checkExists tmpdata_dir, .openLogSink logfile],
           .ok d)

/-- The wrapped callable produced by the `log` decorator (source lines
112-128), applied to `args`. Reading `self.dry_run` on an instance that
never set it raises `AttributeError`. In the dry-run branch the wrapper
prints one line and implicitly returns `None` (modelled `none`); otherwise
it prints and logs "Running name", then runs the body: a normal return
passes through (as `some r`), an exception is logged at error severity via
`logger.exception(traceback.format_exc())` and re-raised as
`Exception(e)`. If the `logger` attribute is missing or was overwritten by
a non-logger value, the `self.logger.info` call raises `AttributeError`
after the print. -/
def log (self : Dict) {α β : Type} (f : Task α β) (args : α) :
    List Effect × Except PyErr (Option β) :=
  match Dict.getattr self "dry_run" with
  | none => ([], .error (.attributeError "dry_run"))
  | some v =>
    if v.truthy then
      ([.stdout ("[DRY RUN] :: " ++ f.name ++ "()")], .ok none)
    else
      let current_info := "Running " ++ f.name
      match Dict.getattr self "logger" with
      | some .logger =>
        match f.body args with
        | (es, .ok r) =>
          ([.stdout current_info, .logWrite .info current_info] ++ es, .ok (some r))
        | (es, .error exc) =>
          ([.stdout current_info, .logWrite .info current_info] ++ es
             ++ [.logWrite .error exc.format_exc],
           .error (.exception exc.msg))
      | _ => ([.stdout current_info], .error (.attributeError "logger"))

/-- An HTTP response as the source uses it: `r.status_code` and the body
bytes `r.content`. -/
structure Response where
  status_code : Nat
  content : List Nat
  deriving DecidableEq, Repr

/-- `TinyETL.download_file` (source lines 133-140). `http` models
`requests.get`. A non-200 status logs one error line and returns; a 200
status opens the destination with mode "wb" (create/truncate) and writes
the whole body. Neither branch raises: the second component is always
`.ok ()`, matching the method's implicit `return None`. -/
def download_file (http : String → Response) (endpoint file_to_write_to : String) :
    List Effect × Except PyErr Unit :=
  let r := http endpoint
  if r.status_code ≠ 200 then
    ([.logWrite .error ("Attempt to download " ++ endpoint ++ " failed with code "
        ++ toString r.status_code ++ ".")], .ok ())
  else
    ([.fileWrite file_to_write_to r.content], .ok ())

/-- A concrete side-effecting probe task used by witnesses: its body would
print and return 7 if it ran. -/
def probeTask : Task Unit Nat :=
  ⟨"probe", fun _ => ([.stdout "probe ran"], .ok 7)⟩

end TinyETL

open TinyETL

/-- C1: for every task function `f` and argument, if the instance's
`dry_run` field is `true`, the wrapped callable does not invoke `f` (none
of `f.body`'s effects occur), writes nothing to the log sink, emits the
single message "[DRY RUN] :: f()" naming `f` to standard output only, and
returns `none`. -/
theorem C1_dry_run_gates (self : Dict) {α β : Type} (f : Task α β) (args : α)
    (h : Dict.getattr self "dry_run" = some (PyVal.bool true)) :
    log self f args =
      ([Effect.stdout ("[DRY RUN] :: " ++ f.name ++ "()")], Except.ok none) := by
  unfold log
  rw [h]
  rfl

/-- Witness for C1 at a concrete instance and the side-effecting probe
task: the probe's effect does not occur and `none` is returned. -/
theorem C1_dry_run_gates_witness :
    log [("dry_run", PyVal.bool true)] probeTask () =
      ([Effect.stdout ("[DRY RUN] :: " ++ probeTask.name ++ "()")], Except.ok none) :=
  C1_dry_run_gates [("dry_run", PyVal.bool true)] probeTask () rfl

/-- C2: for every task function `f` and argument, if the instance's
`dry_run` field is `false` (and its `logger` is the one construction
installed) and `f`'s body returns `r` with effect trace `es`, the wrapped
callable emits exactly one informational "Running f" line to standard
output and to the log sink, both before any effect of the body, and
returns `f`'s return value unchanged. -/
theorem C2_run_logs_and_passes_through (self : Dict) {α β : Type} (f : Task α β)
    (args : α) (es : List Effect) (r : β)
    (h1 : Dict.getattr self "dry_run" = some (PyVal.bool false))
    (h2 : Dict.getattr self "logger" = some PyVal.logger)
    (h3 : f.body args = (es, Except.ok r)) :
    log self f args =
      ([Effect.stdout ("Running " ++ f.name),
        Effect.logWrite Level.info ("Running " ++ f.name)] ++ es,
       Except.ok (some r)) := by
  unfold log
  rw [h1]
  simp only [PyVal.truthy, if_neg]
  rw [h2, h3]
  rfl

/-- Witness for C2: on a concrete non-dry-run instance the probe task runs,
its effect occurs after the "Running probe" lines, and 7 passes through. -/
theorem C2_run_logs_and_passes_through_witness :
    log [("dry_run", PyVal.bool false), ("logger", PyVal.logger)] probeTask () =
      ([Effect.stdout ("Running " ++ probeTask.name),
        Effect.logWrite Level.info ("Running " ++ probeTask.name)]
         ++ [Effect.stdout "probe ran"],
       Except.ok (some 7)) :=
  C2_run_logs_and_passes_through
    [("dry_run", PyVal.bool false), ("logger", PyVal.logger)] probeTask ()
    [Effect.stdout "probe ran"] 7 rfl rfl rfl

/-- C3: for every task function `f` whose body raises, when `dry_run` is
`false` the wrapped callable records the full error detail — the
`format_exc` text, which contains both the stack trace and the message —
to the log sink at error severity, and then re-raises an error carrying
the original error's message; the result is an error, never a normal
return. -/
theorem C3_exception_logged_and_reraised (self : Dict) {α β : Type} (f : Task α β)
    (args : α) (es : List Effect) (exc : PyExc)
    (h1 : Dict.getattr self "dry_run" = some (PyVal.bool false))
    (h2 : Dict.getattr self "logger" = some PyVal.logger)
    (h3 : f.body args = (es, Except.error exc)) :
    log self f args =
      ([Effect.stdout ("Running " ++ f.name),
        Effect.logWrite Level.info ("Running " ++ f.name)] ++ es
         ++ [Effect.logWrite Level.error exc.format_exc],
       Except.error (PyErr.exception exc.msg)) := by
  unfold log
  rw [h1]
  simp only [PyVal.truthy, if_neg]
  rw [h2, h3]
  rfl

/-- Witness for C3 at a concrete raising task: the sink receives the
error-severity trace entry and the wrapper re-raises with the original
message "boom". -/
theorem C3_exception_logged_and_reraised_witness :
    log [("dry_run", PyVal.bool false), ("logger", PyVal.logger)]
        (⟨"blowup", fun _ => ([], Except.error ⟨"ValueError", "boom", "  frames\n"⟩)⟩ :
          Task Unit Nat) () =
      ([Effect.stdout "Running blowup", Effect.logWrite Level.info "Running blowup"]
         ++ [] ++ [Effect.logWrite Level.error
              (PyExc.format_exc ⟨"ValueError", "boom", "  frames\n"⟩)],
       Except.error (PyErr.exception "boom")) :=
  C3_exception_logged_and_reraised
    [("dry_run", PyVal.bool false), ("logger", PyVal.logger)]
    (⟨"blowup", fun _ => ([], Except.error ⟨"ValueError", "boom", "  frames\n"⟩)⟩ :
      Task Unit Nat) () [] ⟨"ValueError", "boom", "  frames\n"⟩ rfl rfl rfl

/-- Helper: when `env.dry_run` is neither exactly "True" nor "False"
(absence included), the resolution raises `SystemExit` with the usage
message. -/
theorem this_is_a_dry_run_usage (env : Env)
    (h1 : env.dry_run ≠ some "True") (h2 : env.dry_run ≠ some "False") :
    this_is_a_dry_run env = Except.error (PyErr.systemExit usage_msg) := by
  unfold this_is_a_dry_run
  cases hd : env.dry_run with
  | none => rfl
  | some s =>
    rw [hd] at h1 h2
    have hs1 : ¬ s = "True" := fun hs => h1 (by rw [hs])
    have hs2 : ¬ s = "False" := fun hs => h2 (by rw [hs])
    simp [hs1, hs2]

/-- C4: the dry-run resolution maps the string "True" to `true` and the
string "False" to `false`, and raises the fatal usage `SystemExit` exactly
when the attribute is absent or holds any other value — there is no silent
default. -/
theorem C4_dry_run_resolution (env : Env) :
    (env.dry_run = some "True" → this_is_a_dry_run env = Except.ok true)
    ∧ (env.dry_run = some "False" → this_is_a_dry_run env = Except.ok false)
    ∧ (this_is_a_dry_run env = Except.error (PyErr.systemExit usage_msg)
        ↔ env.dry_run ≠ some "True" ∧ env.dry_run ≠ some "False") := by
  refine ⟨fun h => by simp [this_is_a_dry_run, h], fun h => by simp [this_is_a_dry_run, h], ?_, ?_⟩
  · intro herr
    constructor
    · intro h
      simp [this_is_a_dry_run, h] at herr
    · intro h
      simp [this_is_a_dry_run, h] at herr
  · intro ⟨h1, h2⟩
    exact this_is_a_dry_run_usage env h1 h2

/-- Witness for C4 at the three concrete inputs "True", "False" and
"yes". -/
theorem C4_dry_run_resolution_witness :
    this_is_a_dry_run ⟨["t"], some "True"⟩ = Except.ok true
    ∧ this_is_a_dry_run ⟨["t"], some "False"⟩ = Except.ok false
    ∧ this_is_a_dry_run ⟨["t"], some "yes"⟩
        = Except.error (PyErr.systemExit usage_msg) :=
  ⟨(C4_dry_run_resolution ⟨["t"], some "True"⟩).1 rfl,
   (C4_dry_run_resolution ⟨["t"], some "False"⟩).2.1 rfl,
   (C4_dry_run_resolution ⟨["t"], some "yes"⟩).2.2.2 ⟨by decide, by decide⟩⟩

/-- C5 counter-evidence (source line 72): with an existing log directory
"/logs" and a missing temp-data directory "/data", construction fails, but
the `SystemExit` message interpolates `log_dir` — it reads "/logs does not
exist. Please create the tmp data directory." and never names the actually
missing path "/data". No log sink is opened before the failure. -/
theorem C5_tmpdata_message_names_log_dir :
    init "job" "desc" ⟨["t"], some "False"⟩ "/logs" "/data" []
        (fun p => p == "/logs") "2024-01-01_00:00:00" =
      ([Effect.checkExists "/logs", Effect.checkExists "/data"],
       Except.error (PyErr.systemExit
         "/logs does not exist. Please create the tmp data directory.")) := by
  rfl

/-- C6: when the context reports zero requested tasks, construction
returns immediately with the minimal (empty-dictionary) instance and an
empty effect trace: no existence check, no dry-run resolution, no log sink
opening, no filesystem side effect at all. -/
theorem C6_zero_tasks_minimal (name long_desc : String) (env : Env)
    (log_dir tmpdata_dir : String) (kwargs : List (String × PyVal))
    (fs : String → Bool) (now : String) (h : env.tasks = []) :
    init name long_desc env log_dir tmpdata_dir kwargs fs now
      = ([], Except.ok ([] : Dict)) := by
  unfold init
  rw [if_pos h]

/-- Witness for C6 on a concrete empty-task context (with directories that
do not even exist). -/
theorem C6_zero_tasks_minimal_witness :
    init "job" "desc" ⟨[], some "garbage"⟩ "/nolog" "/nodata" []
        (fun _ => false) "ts" = ([], Except.ok ([] : Dict)) :=
  C6_zero_tasks_minimal "job" "desc" ⟨[], some "garbage"⟩ "/nolog" "/nodata" []
    (fun _ => false) "ts" rfl

/-- C8: with at least one requested task and a `dry_run` value that is
absent or not exactly "True"/"False", construction raises the usage
`SystemExit` with an empty effect trace: no `os.path.exists` check of
either directory and no log sink opening happens before the failure. -/
theorem C8_usage_before_validation (name long_desc : String) (env : Env)
    (log_dir tmpdata_dir : String) (kwargs : List (String × PyVal))
    (fs : String → Bool) (now : String) (h : env.tasks ≠ [])
    (h1 : env.dry_run ≠ some "True") (h2 : env.dry_run ≠ some "False") :
    init name long_desc env log_dir tmpdata_dir kwargs fs now
      = ([], Except.error (PyErr.systemExit usage_msg)) := by
  unfold init
  rw [if_neg h, this_is_a_dry_run_usage env h1 h2]

/-- Witness for C8: a malformed dry-run value "1" with both directories
existing still fails with the usage message and checks neither path. -/
theorem C8_usage_before_validation_witness :
    init "job" "desc" ⟨["t"], some "1"⟩ "/logs" "/data" []
        (fun _ => true) "ts" = ([], Except.error (PyErr.systemExit usage_msg)) :=
  C8_usage_before_validation "job" "desc" ⟨["t"], some "1"⟩ "/logs" "/data" []
    (fun _ => true) "ts" (by decide) (by decide) (by decide)

/-- C7: `download_file` issues one GET to the endpoint; on status 200 its
only effect is writing exactly the response body bytes to the destination
(binary mode, create/truncate); on any other status its only effect is one
error log line naming the endpoint and the status code — no file is
written or modified. In both cases the result is `.ok ()`: no error is
raised to the caller. -/
theorem C7_download_file_behavior (http : String → Response)
    (endpoint file_to_write_to : String) :
    ((http endpoint).status_code = 200 →
       download_file http endpoint file_to_write_to
         = ([Effect.fileWrite file_to_write_to (http endpoint).content], Except.ok ()))
    ∧ ((http endpoint).status_code ≠ 200 →
       download_file http endpoint file_to_write_to
         = ([Effect.logWrite Level.error ("Attempt to download " ++ endpoint
              ++ " failed with code " ++ toString (http endpoint).status_code ++ ".")],
            Except.ok ())) := by
  constructor <;> intro h <;> simp [download_file, h]

/-- Witness for C7: a mocked 200 response with body [1, 2, 3] is written
verbatim to the destination, and a mocked 404 response produces only the
error log line. -/
theorem C7_download_file_behavior_witness :
    download_file (fun _ => ⟨200, [1, 2, 3]⟩) "http://a/b" "/data/out"
      = ([Effect.fileWrite "/data/out" [1, 2, 3]], Except.ok ())
    ∧ download_file (fun _ => ⟨404, [9]⟩) "http://a/b" "/data/out"
      = ([Effect.logWrite Level.error
           "Attempt to download http://a/b failed with code 404."], Except.ok ()) := by
  constructor
  · exact (C7_download_file_behavior (fun _ => ⟨200, [1, 2, 3]⟩) "http://a/b" "/data/out").1 rfl
  · exact (C7_download_file_behavior (fun _ => ⟨404, [9]⟩) "http://a/b" "/data/out").2 (by decide)

/-- C9: a caller-supplied kwarg whose key is the reserved name `dry_run`
silently overwrites the value resolved during validation — here the
context said "False", yet the constructed instance carries `dry_run =
true`, and the decorator subsequently takes the dry-run branch: the probe
task's body never runs, governed by the caller-supplied value rather than
the validated one. -/
theorem C9_kwargs_overwrite_reserved :
    ∃ d : Dict,
      (init "job" "desc" ⟨["t"], some "False"⟩ "/logs" "/data"
          [("dry_run", PyVal.bool true)]
          (fun p => p == "/logs" || p == "/data") "ts").2 = Except.ok d
      ∧ Dict.getattr d "dry_run" = some (PyVal.bool true)
      ∧ log d probeTask ()
          = ([Effect.stdout ("[DRY RUN] :: " ++ probeTask.name ++ "()")],
             Except.ok none) := by
  refine ⟨_, rfl, rfl, rfl⟩

/-- C10: an instance built from a zero-task context is the empty
dictionary, and invoking the wrapped callable on it raises
`AttributeError` on `dry_run` before any effect occurs: the minimal
instance can neither gate nor run any wrapped task. -/
theorem C10_minimal_instance_cannot_gate (name long_desc : String) (env : Env)
    (log_dir tmpdata_dir : String) (kwargs : List (String × PyVal))
    (fs : String → Bool) (now : String) {α β : Type} (f : Task α β) (args : α)
    (h : env.tasks = []) :
    (init name long_desc env log_dir tmpdata_dir kwargs fs now).2
        = Except.ok ([] : Dict)
    ∧ log ([] : Dict) f args
        = ([], Except.error (PyErr.attributeError "dry_run")) := by
  constructor
  · unfold init
    rw [if_pos h]
  · rfl

/-- Witness for C10 at a concrete zero-task context and the probe task. -/
theorem C10_minimal_instance_cannot_gate_witness :
    (init "job" "desc" ⟨[], some "True"⟩ "/logs" "/data" []
        (fun _ => true) "ts").2 = Except.ok ([] : Dict)
    ∧ log ([] : Dict) probeTask ()
        = ([], Except.error (PyErr.attributeError "dry_run")) :=
  C10_minimal_instance_cannot_gate "job" "desc" ⟨[], some "True"⟩ "/logs" "/data" []
    (fun _ => true) "ts" probeTask () rfl
